import Mathlib

/-!
Verification of the Comelit ICONA Bridge client
(custom_components/comelit_intercom/comelit_client.py).

The client is embedded shallowly:
* byte strings become `List Nat` (each element a byte value);
* the pure packet builders (`_create_header`, `_create_command_packet`,
  `_create_json_packet`, `_create_binary_packet_from_buffers`) become pure
  Lean functions;
* the stateful client (`IconaBridgeClient`) becomes explicit state passing
  over `ClientState` in a small state-plus-exceptions monad `M`; the network
  is modelled by a trace of read results consumed in order, and every packet
  written to the socket is appended to a write log;
* Python exceptions become the `PyErr` error type;
* each blocking socket wait records the `asyncio.wait_for` bound (if any)
  under which it ran, so deadline properties are visible in the final state.
-/

/-! ## Byte-level codec (frame codec of comelit_client.py) -/

/-- Little-endian 16-bit encoding, struct.pack "<H".  The source raises
struct.error for values outside the u16 range; theorems about the codec
carry the range bound explicitly. -/
def u16le (n : Nat) : List Nat := [n % 256, n / 256 % 256]

/-- Little-endian 32-bit encoding, struct.pack "<I". -/
def u32le (n : Nat) : List Nat :=
  [n % 256, n / 256 % 256, n / 65536 % 256, n / 16777216 % 256]

/-- Little-endian 16-bit decoding, struct.unpack "<H" of a two-byte slice. -/
def u16leDecode (l : List Nat) : Nat :=
  match l with
  | [a, b] => a + 256 * b
  | _ => 0

/-- HEADER_MAGIC = b"\x00\x06". -/
def HEADER_MAGIC : List Nat := [0x00, 0x06]

/-- MessageType.COMMAND: opens a channel. -/
def MessageType.COMMAND : Nat := 0xABCD

/-- MessageType.END: closes a channel. -/
def MessageType.END : Nat := 0x01EF

/-- MessageType.OPEN_DOOR_INIT. -/
def MessageType.OPEN_DOOR_INIT : Nat := 0x18C0

/-- MessageType.OPEN_DOOR. -/
def MessageType.OPEN_DOOR : Nat := 0x1800

/-- MessageType.OPEN_DOOR_CONFIRM. -/
def MessageType.OPEN_DOOR_CONFIRM : Nat := 0x1820

/-- IconaBridgeClient._create_header: magic, little-endian body length,
little-endian request id, two zero padding bytes. -/
def createHeader (bodyLength : Nat) (requestId : Nat) : List Nat :=
  HEADER_MAGIC ++ u16le bodyLength ++ u16le requestId ++ [0x00, 0x00]

/-- Field extraction performed by _read_response on a received header:
bytes 2..4 are the body length, bytes 4..6 the request id, both
little-endian (struct.unpack "<H"). -/
def decodeHeaderFields (header : List Nat) : Nat × Nat :=
  (u16leDecode ((header.drop 2).take 2), u16leDecode ((header.drop 4).take 2))

/-- str.encode("ascii").  The source raises UnicodeEncodeError on non-ASCII
characters; on ASCII strings it is exactly the code-point map used here. -/
def asciiBytes (s : String) : List Nat := s.data.map Char.toNat

/-- IconaBridgeClient._string_to_buffer. -/
def stringToBuffer (s : String) (nullTerminated : Bool) : List Nat :=
  asciiBytes s ++ (if nullTerminated then [0x00] else [])

/-- The channel-type table of _create_command_packet (dict .get with
default 0).  Distinct from the unused ViperChannelType enumeration. -/
def channelTypeOf (channel : String) : Nat :=
  if channel = "UAUT" then 7
  else if channel = "UCFG" then 2
  else if channel = "INFO" then 20
  else if channel = "CTPP" then 16
  else if channel = "CSPB" then 17
  else if channel = "PUSH" then 2
  else 0

/-- IconaBridgeClient._create_command_packet.  Python truthiness of the
`channel` and `additional_data` arguments (None or empty string both skip
the section) is modelled by the emptiness tests. -/
def createCommandPacket (requestId : Nat) (seq : Nat) (msgType : Nat)
    (channel : Option String) (additionalData : Option String) : List Nat :=
  let body := u16le msgType ++ u16le seq
  let body :=
    match channel with
    | some c =>
        if c.length ≠ 0 then
          body ++ u32le (channelTypeOf c) ++ asciiBytes c ++ [0x00]
            ++ u16le requestId ++ [0x00]
        else body
    | none => body
  let body :=
    match additionalData with
    | some d =>
        if d.length ≠ 0 then
          body ++ u32le ((asciiBytes d).length + 1) ++ asciiBytes d ++ [0x00]
        else body
    | none => body
  createHeader body.length 0 ++ body

/-- IconaBridgeClient._create_binary_packet_from_buffers. -/
def createBinaryPacketFromBuffers (requestId : Nat) (buffers : List (List Nat)) :
    List Nat :=
  let body := buffers.flatten
  createHeader body.length requestId ++ body

/-! ## JSON serialisation (json.dumps with separators (",", ":")) -/

/-- JSON values appearing in the messages the client sends: strings and
integers only, which covers every field the source writes. -/
inductive JVal where
  | str (s : String)
  | int (n : Int)
deriving Repr, DecidableEq

/-- Hexadecimal digit for the \uXXXX escapes of json.dumps. -/
def hexDigit (n : Nat) : Char :=
  if n < 10 then Char.ofNat (48 + n) else Char.ofNat (87 + n % 16)

/-- Escaping of a single character as performed by json.dumps with its
default ensure_ascii=True: the two-character escapes for the common control
characters, backslash and quote, and \uXXXX for the remaining control or
non-ASCII characters.  Characters beyond the basic multilingual plane would
use surrogate pairs, which the protocol strings never contain. -/
def jsonEscapeChar (c : Char) : String :=
  if c = '\\' then "\\\\"
  else if c = '"' then "\\\""
  else if c = '\n' then "\\n"
  else if c = '\t' then "\\t"
  else if c = '\r' then "\\r"
  else if c.toNat = 8 then "\\b"
  else if c.toNat = 12 then "\\f"
  else if c.toNat < 32 ∨ c.toNat > 126 then
    "\\u" ++ String.mk [hexDigit (c.toNat / 4096 % 16), hexDigit (c.toNat / 256 % 16),
      hexDigit (c.toNat / 16 % 16), hexDigit (c.toNat % 16)]
  else String.singleton c

/-- A JSON string literal. -/
def jsonDumpString (s : String) : String :=
  "\"" ++ String.join (s.data.map jsonEscapeChar) ++ "\""

/-- Serialisation of one JSON value. -/
def JVal.dump : JVal → String
  | JVal.str s => jsonDumpString s
  | JVal.int n => toString n

/-- json.dumps(data, separators=(",", ":")) on an object, keys kept in
insertion order as Python dicts do. -/
def jsonDumps (obj : List (String × JVal)) : String :=
  "\x7b" ++ String.intercalate ","
      (obj.map (fun p => jsonDumpString p.1 ++ ":" ++ p.2.dump))
    ++ "\x7d"

/-- IconaBridgeClient._create_json_packet.  The serialised text is pure
ASCII (ensure_ascii), so its UTF-8 encoding is the code-point map. -/
def createJsonPacket (requestId : Nat) (data : List (String × JVal)) : List Nat :=
  let jsonBytes := asciiBytes (jsonDumps data)
  createHeader jsonBytes.length requestId ++ jsonBytes

/-! ## Classified responses and the client state machine -/

/-- The dictionaries returned by _read_response, as a tagged union.
`binaryCommand` is the request_id == 0, msg_type == COMMAND dictionary
(it carries a "channel_id" key, possibly None); `binaryEnd` is the
request_id == 0, msg_type == END dictionary (no "channel_id" key);
`json` and `binaryData` are the request_id != 0 dictionaries.  JSON
payloads are modelled as flat association lists carrying the integer
fields the operations read. -/
inductive Resp where
  | binaryCommand (sequence : Nat) (channelId : Option Nat)
  | binaryEnd (sequence : Nat)
  | json (requestId : Nat) (data : List (String × Int))
  | binaryData (requestId : Nat) (data : List Nat)
deriving Repr, DecidableEq

/-- Test response["type"] == "binary": true exactly for the two
request_id == 0 dictionaries, which both carry type "binary". -/
def Resp.typeIsBinary : Resp → Bool
  | Resp.binaryCommand _ _ => true
  | Resp.binaryEnd _ => true
  | _ => false

/-- Value of response["sequence"].  Only the binary dictionaries carry the
key; the source reads it only behind the typeIsBinary test, so the default
for the other variants is never observable. -/
def Resp.seqField : Resp → Nat
  | Resp.binaryCommand q _ => q
  | Resp.binaryEnd q => q
  | _ => 0

/-- The Python test `"channel_id" in response and response["channel_id"]`:
the key exists only in the COMMAND dictionary, and both None and 0 are
falsy, so the result is the channel id exactly when present and nonzero. -/
def Resp.channelIdTruthy : Resp → Option Nat
  | Resp.binaryCommand _ (some c) => if c ≠ 0 then some c else none
  | _ => none

/-- Errors a socket read can produce in the trace: an elapsed
asyncio.wait_for deadline, a short read (IncompleteReadError), or any
other socket failure. -/
inductive ReadErr where
  | timeout
  | incomplete
  | other
deriving Repr, DecidableEq

/-- One element of the network trace: what the next _read_response call
yields — a classified response, None (a frame with an empty body), or a
raised exception. -/
abbrev ReadResult := Except ReadErr (Option Resp)

/-- Decidable equality for Except, needed to decide equalities between
runs of the client. -/
instance {ε α : Type} [DecidableEq ε] [DecidableEq α] : DecidableEq (Except ε α) :=
  fun a b =>
  match a, b with
  | Except.ok x, Except.ok y =>
    if h : x = y then Decidable.isTrue (congrArg Except.ok h)
    else Decidable.isFalse (fun hc => h (Except.ok.inj hc))
  | Except.error x, Except.error y =>
    if h : x = y then Decidable.isTrue (congrArg Except.error h)
    else Decidable.isFalse (fun hc => h (Except.error.inj hc))
  | Except.ok _, Except.error _ => Decidable.isFalse (fun hc => Except.noConfusion hc)
  | Except.error _, Except.ok _ => Decidable.isFalse (fun hc => Except.noConfusion hc)

/-- ChannelData of comelit_client.py. -/
structure ChannelData where
  channel : String
  id : Nat
  sequence : Nat
deriving Repr, DecidableEq

/-- The client state: the open_channels dict (association list keyed by
channel name), the request_id counter, the not-yet-consumed network trace,
the log of packets written, and the log of wait bounds (the asyncio
wait_for deadline, in seconds, under which each blocking socket wait ran —
none when the await had no deadline). -/
structure ClientState where
  openChannels : List (String × ChannelData)
  requestId : Nat
  reads : List ReadResult
  writes : List (List Nat)
  bounds : List (Option Nat)
deriving Repr, DecidableEq

/-- Python exceptions raised by the client code under consideration. -/
inductive PyErr where
  | channelOpenFailed (channel : String)
  | readFailed (e : ReadErr)
  | keyError
  | valueError
deriving Repr, DecidableEq

/-- The client monad: state passing plus exceptions, with the state
preserved on error so postconditions of failing calls are expressible. -/
def M (α : Type) : Type := ClientState → Except PyErr α × ClientState

/-- Monadic return. -/
def M.pure {α : Type} (a : α) : M α := fun s => (Except.ok a, s)

/-- Monadic sequencing; an error short-circuits but keeps the state. -/
def M.bind {α β : Type} (m : M α) (f : α → M β) : M β := fun s =>
  match m s with
  | (Except.ok a, s1) => f a s1
  | (Except.error e, s1) => (Except.error e, s1)

/-- Raise a Python exception. -/
def M.throw {α : Type} (e : PyErr) : M α := fun s => (Except.error e, s)

/-- try/except: run m, and on any exception run the handler from the
state reached at the raise point. -/
def M.attempt {α : Type} (m : M α) (h : PyErr → M α) : M α := fun s =>
  match m s with
  | (Except.ok a, s1) => (Except.ok a, s1)
  | (Except.error e, s1) => h e s1

/-- Read the current state. -/
def M.get : M ClientState := fun s => (Except.ok s, s)

/-- Update the state. -/
def M.modifyS (f : ClientState → ClientState) : M Unit := fun s => (Except.ok (), f s)

/-- dict lookup self.open_channels.get(k) / membership test, on the
association-list model of the registry. -/
def lookupEntry (m : List (String × ChannelData)) (k : String) : Option ChannelData :=
  match m with
  | [] => none
  | p :: t => if p.1 = k then some p.2 else lookupEntry t k

/-- dict assignment self.open_channels[k] = v. -/
def setEntry (m : List (String × ChannelData)) (k : String) (v : ChannelData) :
    List (String × ChannelData) :=
  if (lookupEntry m k).isSome then m.map (fun p => if p.1 = k then (k, v) else p)
  else m ++ [(k, v)]

/-- dict removal self.open_channels.pop(k, None). -/
def removeEntry (m : List (String × ChannelData)) (k : String) :
    List (String × ChannelData) :=
  m.filter (fun p => p.1 ≠ k)

/-- IconaBridgeClient._write_packet: the packet goes to the write log. -/
def writePacket (packet : List Nat) : M Unit :=
  M.modifyS (fun s => { s with writes := s.writes ++ [packet] })

/-- One _read_response call, consuming the next trace element and
recording the wait_for bound (if any) under which it ran.  An exhausted
trace is a peer that closed the connection: readexactly raises
IncompleteReadError. -/
def readFrame (bound : Option Nat) : M (Option Resp) := fun s =>
  match s.reads with
  | [] => (Except.error (PyErr.readFailed ReadErr.incomplete),
           { s with bounds := s.bounds ++ [bound] })
  | r :: rest =>
    let s1 := { s with reads := rest, bounds := s.bounds ++ [bound] }
    match r with
    | Except.ok v => (Except.ok v, s1)
    | Except.error e => (Except.error (PyErr.readFailed e), s1)

/-- A bare `await self._read_response()`: no deadline. -/
def readResponse : M (Option Resp) := readFrame none

/-- `await asyncio.wait_for(self._read_response(), timeout=2.0)`. -/
def readResponseTimeout2 : M (Option Resp) := readFrame (some 2)

/-- The `try: two wait_for reads except TimeoutError: pass` blocks of
_open_door_init and open_door: a timeout on either read (the second is
never attempted after the first times out) is swallowed; any other
exception propagates. -/
def readTwoTolerant : M Unit :=
  M.attempt
    (M.bind readResponseTimeout2 fun _ =>
     M.bind readResponseTimeout2 fun _ =>
     M.pure ())
    (fun e =>
      match e with
      | PyErr.readFailed ReadErr.timeout => M.pure ()
      | _ => M.throw e)

/-- The ChannelData stored by a successful _open_channel given the reply:
sequence is taken from the reply (necessarily 2), and the id is the
server-assigned channel id when the reply carries a truthy one, else the
client-chosen request id. -/
def openedCD (channel : String) (rid : Nat) (resp : Resp) : ChannelData :=
  let cd1 : ChannelData := ⟨channel, rid, resp.seqField⟩
  match resp.channelIdTruthy with
  | some c => { cd1 with id := c }
  | none => cd1

/-- IconaBridgeClient._open_channel. -/
def openChannel (channel : String) (additionalData : Option String) : M ChannelData :=
  M.bind M.get fun s =>
  match lookupEntry s.openChannels channel with
  | some cd => M.pure cd
  | none =>
    M.bind (M.modifyS fun st => { st with requestId := st.requestId + 1 }) fun _ =>
    M.bind M.get fun s1 =>
    M.bind (writePacket (createCommandPacket s1.requestId 1 MessageType.COMMAND
      (some channel) additionalData)) fun _ =>
    M.bind readResponse fun response =>
    match response with
    | some r =>
      if r.typeIsBinary && (r.seqField == 2) then
        M.bind (M.modifyS fun st =>
          { st with openChannels :=
              setEntry st.openChannels channel (openedCD channel s1.requestId r) }) fun _ =>
        M.pure (openedCD channel s1.requestId r)
      else M.throw (PyErr.channelOpenFailed channel)
    | none => M.throw (PyErr.channelOpenFailed channel)

/-- IconaBridgeClient._close_channel.  The source first increments the
sequence of the (aliased) ChannelData object, sends the END packet, reads
the reply under a try/except that turns every exception into None, then
unconditionally pops the registry entry, and finally reports whether a
binary reply was seen.  The aliased mutation is unobservable because the
entry is popped. -/
def closeChannel (cd0 : ChannelData) : M Bool :=
  let cd : ChannelData := { cd0 with sequence := cd0.sequence + 1 }
  M.bind (writePacket (createCommandPacket cd.id cd.sequence MessageType.END
    none none)) fun _ =>
  M.bind (M.attempt readResponse (fun _ => M.pure none)) fun response =>
  M.bind (M.modifyS fun st =>
    { st with openChannels := removeEntry st.openChannels cd.channel }) fun _ =>
  match response with
  | some r => if r.typeIsBinary then M.pure true else M.pure false
  | none => M.pure false

/-- The authentication message of IconaBridgeClient.authenticate
(message-id is the numeric 2, not the channel name). -/
def authMessage (token : String) : List (String × JVal) :=
  [("message", JVal.str "access"),
   ("user-token", JVal.str token),
   ("message-type", JVal.str "request"),
   ("message-id", JVal.int 2)]

/-- IconaBridgeClient.authenticate. -/
def authenticate (token : String) : M Int :=
  M.bind (openChannel "UAUT" none) fun channel =>
  M.bind (writePacket (createJsonPacket channel.id (authMessage token))) fun _ =>
  M.bind readResponse fun response =>
  match response with
  | some (Resp.json _ data) =>
    M.bind (closeChannel channel) fun _ =>
    M.pure ((data.lookup "response-code").getD 500)
  | _ =>
    M.bind (closeChannel channel) fun _ =>
    M.pure 500

/-- ViperChannelType.UCFG, the message-id used by get_config. -/
def ViperChannelType.UCFG : Nat := 3

/-- The get-configuration message of IconaBridgeClient.get_config. -/
def configMessage (addressbooks : String) : List (String × JVal) :=
  [("message", JVal.str "get-configuration"),
   ("addressbooks", JVal.str addressbooks),
   ("message-type", JVal.str "request"),
   ("message-id", JVal.int (ViperChannelType.UCFG : Int))]

/-- IconaBridgeClient.get_config. -/
def getConfig (addressbooks : String) : M (Option (List (String × Int))) :=
  M.bind (openChannel "UCFG" none) fun channel =>
  M.bind (writePacket (createJsonPacket channel.id (configMessage addressbooks))) fun _ =>
  M.bind readResponse fun response =>
  match response with
  | some (Resp.json _ data) =>
    M.bind (closeChannel channel) fun _ =>
    M.pure (some data)
  | _ =>
    M.bind (closeChannel channel) fun _ =>
    M.pure none

/-! ## Door operations -/

/-- The apartment record consumed by the door operations.  Missing
apt-subaddress keys read through vip.get(..., "") are the empty string. -/
structure Vip where
  aptAddress : String
  aptSubaddress : String
deriving Repr, DecidableEq

/-- One entry of the opendoor address book.  The name field is used only
for logging in the source. -/
structure DoorItem where
  aptAddress : String
  outputIndex : String
  name : String
deriving Repr, DecidableEq

/-- int(s) for the decimal strings the address book holds: all-digit
strings parse to their value, anything else raises ValueError.  (int()
also accepts signs and surrounding whitespace, which no address-book
output index uses.) -/
def strToNat (s : String) : Option Nat :=
  if s.data ≠ [] ∧ s.data.all (fun c => c.isDigit) then
    some (s.data.foldl (fun acc c => acc * 10 + (c.toNat - 48)) 0)
  else none

/-- bytes([int(door_item["output-index"]), 0, 0, 0]) of open_door: int()
on a non-numeric string raises ValueError, and bytes() rejects values
outside 0..255. -/
def outputIndexByte (s : String) : Except Unit Nat :=
  match strToNat s with
  | some n => if n < 256 then Except.ok n else Except.error ()
  | none => Except.error ()

/-- IconaBridgeClient._open_door_init. -/
def openDoorInit (vip : Vip) : M Unit :=
  let aptAddress := vip.aptAddress ++ vip.aptSubaddress
  M.bind (openChannel "CTPP" (some aptAddress)) fun channel =>
  M.bind (writePacket (createBinaryPacketFromBuffers channel.id
    [[0xC0, 0x18, 0x5C, 0x8B],
     [0x2B, 0x73, 0x00, 0x11],
     [0x00, 0x40, 0xAC, 0x23],
     stringToBuffer aptAddress true,
     [0x10, 0x0E],
     [0x00, 0x00, 0x00, 0x00],
     [0xFF, 0xFF, 0xFF, 0xFF],
     stringToBuffer aptAddress true,
     stringToBuffer vip.aptAddress true,
     [0x00]])) fun _ =>
  readTwoTolerant

/-- The create_door_message helper of open_door (confirm selects between
OPEN_DOOR and OPEN_DOOR_CONFIRM). -/
def doorMessage (channelId : Nat) (vip : Vip) (door : DoorItem) (confirm : Bool) :
    List Nat :=
  let msgType := if confirm then MessageType.OPEN_DOOR_CONFIRM else MessageType.OPEN_DOOR
  createBinaryPacketFromBuffers channelId
    [u16le msgType,
     [0x5C, 0x8B],
     [0x2C, 0x74, 0x00, 0x00],
     [0xFF, 0xFF, 0xFF, 0xFF],
     stringToBuffer (vip.aptAddress ++ door.outputIndex) true,
     stringToBuffer door.aptAddress true,
     [0x00]]

/-- IconaBridgeClient.open_door. -/
def openDoor (vip : Vip) (door : DoorItem) : M Unit :=
  M.bind M.get fun s0 =>
  M.bind (if (lookupEntry s0.openChannels "CTPP").isNone
          then openDoorInit vip else M.pure ()) fun _ =>
  M.bind M.get fun s1 =>
  M.bind (match lookupEntry s1.openChannels "CTPP" with
          | some c => M.pure c
          | none => M.throw PyErr.keyError) fun channel =>
  M.bind (writePacket (doorMessage channel.id vip door false)) fun _ =>
  M.bind (writePacket (doorMessage channel.id vip door true)) fun _ =>
  M.bind (match outputIndexByte door.outputIndex with
          | Except.ok n => M.pure n
          | Except.error _ => M.throw PyErr.valueError) fun outIdx =>
  M.bind (writePacket (createBinaryPacketFromBuffers channel.id
    [[0xC0, 0x18, 0x70, 0xAB],
     [0x29, 0x9F, 0x00, 0x0D],
     [0x00, 0x2D],
     stringToBuffer door.aptAddress true,
     [0x00],
     [outIdx, 0x00, 0x00, 0x00],
     [0xFF, 0xFF, 0xFF, 0xFF],
     stringToBuffer (vip.aptAddress ++ door.outputIndex) true,
     stringToBuffer door.aptAddress true,
     [0x00]])) fun _ =>
  M.bind readTwoTolerant fun _ =>
  M.bind (writePacket (doorMessage channel.id vip door false)) fun _ =>
  M.bind (writePacket (doorMessage channel.id vip door true)) fun _ =>
  M.attempt (M.bind (closeChannel channel) fun _ => M.pure ()) (fun _ => M.pure ())

/-! ## Connection lifecycle -/

/-- The asyncio.wait_for bound on the connection attempt, in seconds. -/
def connectTimeoutSeconds : Nat := 10

/-- The successful path of IconaBridgeClient.connect: the connection
attempt runs under a 10-second wait_for bound, and the channel registry is
cleared so no state of an earlier session survives. -/
def connect : M Unit :=
  M.bind (M.modifyS fun s =>
    { s with bounds := s.bounds ++ [some connectTimeoutSeconds] }) fun _ =>
  M.modifyS fun s => { s with openChannels := [] }

/-- IconaBridgeClient.shutdown: close the writer (no registry effect) and
drop all cached channel state. -/
def shutdown : M Unit :=
  M.modifyS fun s => { s with openChannels := [] }

/-! ## Byte-level classification of request_id == 0 frames -/

/-- The request_id == 0 branch of _read_response, as a function of the
received body bytes: bodies shorter than four bytes make struct.unpack
raise (modelled as the error case); COMMAND replies yield the dictionary
with the channel id taken from bytes 8..10 when the body has at least ten
bytes; END replies yield the acknowledgment dictionary; any other message
type falls through to `return None`. -/
def parseBinaryResponse (body : List Nat) : Except Unit (Option Resp) :=
  if body.length < 4 then Except.error ()
  else
    let msgType := u16leDecode ((body.drop 0).take 2)
    let sequence := u16leDecode ((body.drop 2).take 2)
    if msgType = MessageType.COMMAND then
      Except.ok (some (Resp.binaryCommand sequence
        (if body.length ≥ 10 then some (u16leDecode ((body.drop 8).take 2)) else none)))
    else if msgType = MessageType.END then
      Except.ok (some (Resp.binaryEnd sequence))
    else Except.ok none

/-! ## Observations on the write log -/

/-- The message type of a logged packet: the two bytes right after the
8-byte header, little-endian.  For command packets this is the msg_type
field; for the door packets it is the leading u16 of the first buffer. -/
def msgTypeAt (packet : List Nat) : Nat :=
  u16leDecode ((packet.drop 8).take 2)

/-- Number of positions where an OPEN_DOOR packet is immediately followed
by an OPEN_DOOR_CONFIRM packet, on the list of logged message types. -/
def countDoorPairs : List Nat → Nat
  | a :: b :: rest =>
    (if a = MessageType.OPEN_DOOR ∧ b = MessageType.OPEN_DOOR_CONFIRM then 1 else 0)
      + countDoorPairs (b :: rest)
  | _ => 0

/-! ## Concrete run configurations used by the claims -/

/-- A fresh session about to perform one channel open: empty registry,
request counter 8000, and the given single reply in the trace. -/
def openRunState (r : ReadResult) : ClientState :=
  ⟨[], 8000, [r], [], []⟩

/-- A successful COMMAND acknowledgment with sequence 2 carrying the
server-assigned channel id 77. -/
def ackCid77 : ReadResult := Except.ok (some (Resp.binaryCommand 2 (some 77)))

/-- A session about to run authenticate or get_config: empty registry,
request counter 8000; the trace holds the open acknowledgment, the
operation's reply, and an empty-body frame for the close exchange. -/
def exchangeRunState (r : ReadResult) : ClientState :=
  ⟨[], 8000, [ackCid77, r, Except.ok none], [], []⟩

/-- A session about to run open_door with no CTPP channel open: the trace
holds the CTPP open acknowledgment (server id 90), timeouts for both
attempted handshake reads (after the first read of a tolerant pair times
out, the second is never attempted), and an empty-body frame for the
close exchange. -/
def doorRunState : ClientState :=
  ⟨[], 8000,
   [Except.ok (some (Resp.binaryCommand 2 (some 90))),
    Except.error ReadErr.timeout,
    Except.error ReadErr.timeout,
    Except.ok none], [], []⟩

/-- A registry already holding an open UAUT channel, for idempotence. -/
def uautOpenState : ClientState :=
  ⟨[("UAUT", ⟨"UAUT", 44, 2⟩)], 8000, [], [], []⟩

/-! ## Registry lemmas -/

theorem lookupEntry_append_right (m : List (String × ChannelData)) (k : String)
    (v : ChannelData) (h : lookupEntry m k = none) :
    lookupEntry (m ++ [(k, v)]) k = some v := by
  induction m with
  | nil => simp [lookupEntry]
  | cons p t ih =>
    rw [List.cons_append]
    simp only [lookupEntry] at h ⊢
    by_cases hpk : p.1 = k
    · simp [hpk] at h
    · simp only [if_neg hpk] at h ⊢
      exact ih h

theorem lookupEntry_setEntry_new (m : List (String × ChannelData)) (k : String)
    (v : ChannelData) (h : lookupEntry m k = none) :
    lookupEntry (setEntry m k v) k = some v := by
  unfold setEntry
  rw [h]
  exact lookupEntry_append_right m k v h

theorem lookupEntry_removeEntry (m : List (String × ChannelData)) (k : String) :
    lookupEntry (removeEntry m k) k = none := by
  induction m with
  | nil => rfl
  | cons p t ih =>
    unfold removeEntry at ih ⊢
    rw [List.filter_cons]
    by_cases h : p.1 = k
    · simpa [h] using ih
    · simpa [h, lookupEntry] using ih

/-! ## Claim theorems -/

/-- C2 counterexample: the encoded open-UAUT request of
_create_command_packet differs from the byte vector the claim states
(that vector belongs to an abandoned sibling implementation and is not
what this client emits). -/
theorem C2_counterexample :
    createCommandPacket 8001 1 MessageType.COMMAND (some "UAUT") none ≠
      [0x00, 0x06, 0x0C, 0x00, 0x00, 0x00, 0x00, 0x00, 0xCD, 0xAB, 0x01, 0x00,
       0x08, 0x00, 0x00, 0x00, 0x55, 0x41, 0x55, 0x54, 0x41, 0x1F, 0x00] := by
  decide

/-- C2 (amended): with request_id 8001, sequence 1, channel "UAUT" and no
additional data, the encoded request is exactly
00 06 10 00 00 00 00 00 cd ab 01 00 07 00 00 00 55 41 55 54 00 41 1f 00
(body length 16, channel type 7, NUL after the channel name, request id
repeated in the body, final NUL). -/
theorem C2_open_uaut_bytes :
    createCommandPacket 8001 1 MessageType.COMMAND (some "UAUT") none =
      [0x00, 0x06, 0x10, 0x00, 0x00, 0x00, 0x00, 0x00, 0xCD, 0xAB, 0x01, 0x00,
       0x07, 0x00, 0x00, 0x00, 0x55, 0x41, 0x55, 0x54, 0x00, 0x41, 0x1F, 0x00] := by
  decide

/-- C8: for all body_length and request_id in the u16 range, extracting
bytes 2..4 and 4..6 of the encoded header as little-endian u16 fields,
as _read_response does, returns exactly the encoded pair. -/
theorem C8_header_roundtrip (bl rid : Nat) (hb : bl < 65536) (hr : rid < 65536) :
    decodeHeaderFields (createHeader bl rid) = (bl, rid) := by
  simp only [decodeHeaderFields, createHeader, HEADER_MAGIC, u16le, u16leDecode,
    List.cons_append, List.nil_append, List.drop_succ_cons, List.drop_zero,
    List.take_succ_cons, List.take_zero, Prod.mk.injEq]
  omega

/-- C8 witness at (body_length, request_id) = (300, 8001). -/
theorem C8_header_roundtrip_witness :
    decodeHeaderFields (createHeader 300 8001) = (300, 8001) :=
  C8_header_roundtrip 300 8001 (by decide) (by decide)

/-- C9: opening a channel whose name already has a registry entry returns
that entry and leaves the whole client state untouched: no packet written,
no frame read, the request-id counter and the registry unchanged. -/
theorem C9_open_idempotent (chan : String) (ad : Option String) (s : ClientState)
    (cd : ChannelData) (h : lookupEntry s.openChannels chan = some cd) :
    openChannel chan ad s = (Except.ok cd, s) := by
  simp [openChannel, M.bind, M.get, M.pure, h]

/-- C9 witness: reopening the already-open UAUT channel. -/
theorem C9_open_idempotent_witness :
    openChannel "UAUT" none uautOpenState = (Except.ok ⟨"UAUT", 44, 2⟩, uautOpenState) :=
  C9_open_idempotent "UAUT" none uautOpenState ⟨"UAUT", 44, 2⟩ (by decide)

/-- C10: connect (successful path) and shutdown both clear the channel
registry, so immediately after either call the registry is empty and no
entry from an earlier connection is visible. -/
theorem C10_connect_shutdown_clear (s : ClientState) :
    ((connect s).2).openChannels = [] ∧ ((shutdown s).2).openChannels = [] :=
  ⟨rfl, rfl⟩
/-- C1 (amended): with no prior entry for the name and a single reply in
the trace, the registry's open succeeds — storing and returning the
channel — exactly when the reply decodes to a binary-control message
(message type COMMAND or END) with sequence 2; under any other non-raising
reply (no body, other message type, wrong sequence, JSON, opaque binary)
it fails with ChannelOpenFailed, a raising read propagates the read error,
and in every failure case the registry is left exactly as it was. -/
theorem C1_open_channel_outcomes (chan : String) (ad : Option String)
    (s : ClientState) (r : ReadResult) (rest : List ReadResult)
    (hni : lookupEntry s.openChannels chan = none) (hr : s.reads = r :: rest) :
    match r with
    | Except.ok (some resp) =>
      if resp.typeIsBinary && (resp.seqField == 2) then
        (openChannel chan ad s).1 = Except.ok (openedCD chan (s.requestId + 1) resp) ∧
        lookupEntry ((openChannel chan ad s).2).openChannels chan =
          some (openedCD chan (s.requestId + 1) resp)
      else
        (openChannel chan ad s).1 = Except.error (PyErr.channelOpenFailed chan) ∧
        ((openChannel chan ad s).2).openChannels = s.openChannels
    | Except.ok none =>
      (openChannel chan ad s).1 = Except.error (PyErr.channelOpenFailed chan) ∧
      ((openChannel chan ad s).2).openChannels = s.openChannels
    | Except.error e =>
      (openChannel chan ad s).1 = Except.error (PyErr.readFailed e) ∧
      ((openChannel chan ad s).2).openChannels = s.openChannels := by
  cases r with
  | error e =>
    simp [openChannel, M.bind, M.get, M.pure, M.modifyS, M.throw, writePacket,
      readResponse, readFrame, hni, hr]
  | ok v =>
    cases v with
    | none =>
      simp [openChannel, M.bind, M.get, M.pure, M.modifyS, M.throw, writePacket,
        readResponse, readFrame, hni, hr]
    | some resp =>
      by_cases hb : (resp.typeIsBinary && (resp.seqField == 2)) = true
      · simp only []
        rw [if_pos hb]
        constructor
        · simp [openChannel, M.bind, M.get, M.pure, M.modifyS, M.throw, writePacket,
            readResponse, readFrame, hni, hr, hb]
        · simp [openChannel, M.bind, M.get, M.pure, M.modifyS, M.throw, writePacket,
            readResponse, readFrame, hni, hr, hb]
          exact lookupEntry_setEntry_new _ _ _ hni
      · simp only []
        rw [if_neg hb]
        simp [openChannel, M.bind, M.get, M.pure, M.modifyS, M.throw, writePacket,
          readResponse, readFrame, hni, hr, hb]

/-- C1 counterexample: a reply that is a binary END message (message type
0x01EF, not COMMAND) with sequence 2 makes the open succeed and store a
registry entry, contradicting the claim that success requires message
type COMMAND; the byte-level decoder confirms that the body
ef 01 02 00 of a request_id == 0 frame classifies as exactly that reply. -/
theorem C1_counterexample :
    (openChannel "UAUT" none (openRunState (Except.ok (some (Resp.binaryEnd 2))))).1 =
      Except.ok ⟨"UAUT", 8001, 2⟩ ∧
    lookupEntry ((openChannel "UAUT" none (openRunState (Except.ok (some
      (Resp.binaryEnd 2))))).2).openChannels "UAUT" = some ⟨"UAUT", 8001, 2⟩ ∧
    parseBinaryResponse [0xEF, 0x01, 0x02, 0x00] =
      Except.ok (some (Resp.binaryEnd 2)) ∧
    MessageType.END ≠ MessageType.COMMAND := by
  decide

/-- C1 witness: a COMMAND acknowledgment with sequence 2 and channel id
77 makes the open succeed and store the channel. -/
theorem C1_open_channel_outcomes_witness :
    (openChannel "UAUT" none (openRunState ackCid77)).1 =
      Except.ok (openedCD "UAUT" 8001 (Resp.binaryCommand 2 (some 77))) ∧
    lookupEntry ((openChannel "UAUT" none (openRunState ackCid77)).2).openChannels
      "UAUT" = some (openedCD "UAUT" 8001 (Resp.binaryCommand 2 (some 77))) :=
  C1_open_channel_outcomes "UAUT" none (openRunState ackCid77)
    (Except.ok (some (Resp.binaryCommand 2 (some 77)))) [] (by decide) rfl

/-- A registry with one open UAUT channel (server id 77) and one reply in
the trace for the close exchange. -/
def closeRunState (r : ReadResult) : ClientState :=
  ⟨[("UAUT", ⟨"UAUT", 77, 2⟩)], 8001, [r], [], []⟩

/-- C4: after the close operation returns, the registry holds no entry
for the channel's name, on every outcome of the close exchange — binary
acknowledgment, non-binary or empty-body reply, or a raised read error —
and the boolean result is exactly whether a binary reply was observed. -/
theorem C4_close_always_removes (cd : ChannelData) (s : ClientState)
    (r : ReadResult) (rest : List ReadResult) (hr : s.reads = r :: rest) :
    lookupEntry ((closeChannel cd s).2).openChannels cd.channel = none ∧
    (closeChannel cd s).1 = Except.ok (match r with
      | Except.ok (some resp) => resp.typeIsBinary
      | _ => false) := by
  cases r with
  | error e =>
    simp [closeChannel, M.bind, M.attempt, M.pure, M.modifyS, writePacket,
      readResponse, readFrame, hr, lookupEntry_removeEntry]
  | ok v =>
    cases v with
    | none =>
      simp [closeChannel, M.bind, M.attempt, M.pure, M.modifyS, writePacket,
        readResponse, readFrame, hr, lookupEntry_removeEntry]
    | some resp =>
      cases resp <;>
        simp [closeChannel, M.bind, M.attempt, M.pure, M.modifyS, writePacket,
          readResponse, readFrame, hr, Resp.typeIsBinary, lookupEntry_removeEntry]

/-- C4 witness: closing the open UAUT channel under an END acknowledgment
removes the entry and reports true. -/
theorem C4_close_always_removes_witness :
    lookupEntry ((closeChannel ⟨"UAUT", 77, 2⟩
      (closeRunState (Except.ok (some (Resp.binaryEnd 3))))).2).openChannels
      "UAUT" = none ∧
    (closeChannel ⟨"UAUT", 77, 2⟩
      (closeRunState (Except.ok (some (Resp.binaryEnd 3))))).1 = Except.ok true :=
  C4_close_always_removes ⟨"UAUT", 77, 2⟩
    (closeRunState (Except.ok (some (Resp.binaryEnd 3))))
    (Except.ok (some (Resp.binaryEnd 3))) [] rfl

/-- C6: for every token, with the UAUT open acknowledged and a single
reply v to the authentication request, authenticate returns the integer
value of the "response-code" field when v classifies as JSON and carries
that field, and 500 on any other outcome (empty-body frame, binary or
opaque-binary reply, or JSON without the field); in both the JSON and the
non-JSON case the UAUT channel is closed before returning: its registry
entry is gone and the END packet follows the authentication request in
the write log. -/
theorem C6_authenticate_result (token : String) (v : Option Resp) :
    lookupEntry ((authenticate token (exchangeRunState
      (Except.ok v))).2).openChannels "UAUT" = none ∧
    ((authenticate token (exchangeRunState (Except.ok v))).2).writes =
      [createCommandPacket 8001 1 MessageType.COMMAND (some "UAUT") none,
       createJsonPacket 77 (authMessage token),
       createCommandPacket 77 3 MessageType.END none none] ∧
    (authenticate token (exchangeRunState (Except.ok v))).1 =
      Except.ok (match v with
        | some (Resp.json _ data) => (data.lookup "response-code").getD 500
        | _ => 500) := by
  cases v with
  | none => exact ⟨rfl, rfl, rfl⟩
  | some resp => cases resp <;> exact ⟨rfl, rfl, rfl⟩

/-- C5 (amended): on a successful open whose acknowledgment carries a
truthy (present and nonzero) channel id, the stored channel's id is that
server-assigned id, not the client request id used to open the channel;
the stored id is what header bytes 4..6 of subsequent JSON and
binary-data packets built for the channel decode to, while command
packets — such as the END sent on close — always carry header request_id
0. -/
theorem C5_server_id_adoption (chan : String) (s : ClientState)
    (cid : Nat) (rest : List ReadResult) (data : List (String × JVal))
    (buffers : List (List Nat)) (seq : Nat)
    (hni : lookupEntry s.openChannels chan = none)
    (hr : s.reads = Except.ok (some (Resp.binaryCommand 2 (some cid))) :: rest)
    (hcid : cid ≠ 0) (hlt : cid < 65536) :
    (openChannel chan none s).1 = Except.ok ⟨chan, cid, 2⟩ ∧
    u16leDecode (((createJsonPacket cid data).drop 4).take 2) = cid ∧
    u16leDecode (((createBinaryPacketFromBuffers cid buffers).drop 4).take 2) = cid ∧
    u16leDecode (((createCommandPacket cid seq MessageType.END none none).drop 4).take 2)
      = 0 := by
  refine ⟨?_, ?_, ?_, ?_⟩
  · simp [openChannel, M.bind, M.get, M.pure, M.modifyS, M.throw, writePacket,
      readResponse, readFrame, hni, hr, openedCD, Resp.typeIsBinary, Resp.seqField,
      Resp.channelIdTruthy, hcid]
  · simp only [createJsonPacket, createHeader, HEADER_MAGIC, u16le, u16leDecode,
      List.cons_append, List.nil_append, List.drop_succ_cons, List.drop_zero,
      List.take_succ_cons, List.take_zero]
    omega
  · simp only [createBinaryPacketFromBuffers, createHeader, HEADER_MAGIC, u16le,
      u16leDecode, List.cons_append, List.nil_append, List.drop_succ_cons,
      List.drop_zero, List.take_succ_cons, List.take_zero]
    omega
  · simp only [createCommandPacket, createHeader, HEADER_MAGIC, u16le, u16leDecode,
      List.cons_append, List.nil_append, List.drop_succ_cons, List.drop_zero,
      List.take_succ_cons, List.take_zero]

/-- C5 counterexample: a ten-byte COMMAND acknowledgment whose channel-id
bytes are 00 00 carries channel id 0, which is falsy in the source's
adoption test, so the stored channel keeps the client-chosen id 8001:
the overwrite is not unconditional. -/
theorem C5_counterexample :
    (openChannel "UAUT" none (openRunState (Except.ok (some
      (Resp.binaryCommand 2 (some 0)))))).1 = Except.ok ⟨"UAUT", 8001, 2⟩ ∧
    parseBinaryResponse [0xCD, 0xAB, 0x02, 0x00, 0x00, 0x00, 0x00, 0x00, 0x00, 0x00] =
      Except.ok (some (Resp.binaryCommand 2 (some 0))) ∧
    (8001 : Nat) ≠ 0 := by
  decide

/-- C5 witness: server id 77 is adopted and addresses the follow-up
packets, while the END close packet is addressed with request_id 0. -/
theorem C5_server_id_adoption_witness :
    (openChannel "UAUT" none (openRunState ackCid77)).1 = Except.ok ⟨"UAUT", 77, 2⟩ ∧
    u16leDecode (((createJsonPacket 77 (authMessage "t")).drop 4).take 2) = 77 ∧
    u16leDecode (((createBinaryPacketFromBuffers 77 [[1, 2]]).drop 4).take 2) = 77 ∧
    u16leDecode (((createCommandPacket 77 3 MessageType.END none none).drop 4).take 2)
      = 0 :=
  C5_server_id_adoption "UAUT" (openRunState ackCid77) 77 [] (authMessage "t")
    [[1, 2]] 3 (by decide) rfl (by decide) (by decide)

theorem msgTypeAt_commandPacket (rid seq mt : Nat) (ch ad : Option String) :
    msgTypeAt (createCommandPacket rid seq mt ch ad) = u16leDecode (u16le mt) := by
  rcases ch with _ | c <;> rcases ad with _ | d <;>
    simp only [createCommandPacket] <;>
    first
    | rfl
    | (split_ifs <;> rfl)

theorem msgTypeAt_bufferPacket (rid a b : Nat) (l : List Nat) (rest : List (List Nat)) :
    msgTypeAt (createBinaryPacketFromBuffers rid ((a :: b :: l) :: rest)) =
      a + 256 * b := rfl

theorem msgTypeAt_doorMessage_open (cid : Nat) (vip : Vip) (door : DoorItem) :
    msgTypeAt (doorMessage cid vip door false) = MessageType.OPEN_DOOR := rfl

theorem msgTypeAt_doorMessage_confirm (cid : Nat) (vip : Vip) (door : DoorItem) :
    msgTypeAt (doorMessage cid vip door true) = MessageType.OPEN_DOOR_CONFIRM := rfl

/-- C3: for every vip and door item (with a door output index that int()
and bytes() accept, as every address-book index is), the packets written
by open_door from a fresh session contain an OPEN_DOOR packet immediately
followed by an OPEN_DOOR_CONFIRM packet at least twice, and even though
every attempted handshake read times out, the CTPP channel is still
closed: an END packet is written and the registry entry is removed. -/
theorem C3_open_door_sequence (vip : Vip) (door : DoorItem) (k : Nat)
    (hidx : outputIndexByte door.outputIndex = Except.ok k) :
    (openDoor vip door doorRunState).1 = Except.ok () ∧
    2 ≤ countDoorPairs
      (((openDoor vip door doorRunState).2).writes.map msgTypeAt) ∧
    MessageType.END ∈ ((openDoor vip door doorRunState).2).writes.map msgTypeAt ∧
    lookupEntry ((openDoor vip door doorRunState).2).openChannels "CTPP" = none := by
  have hrun : openDoor vip door doorRunState =
      (Except.ok (),
       ⟨[], 8001, [],
        [createCommandPacket 8001 1 MessageType.COMMAND (some "CTPP")
           (some (vip.aptAddress ++ vip.aptSubaddress)),
         createBinaryPacketFromBuffers 90
           [[0xC0, 0x18, 0x5C, 0x8B],
            [0x2B, 0x73, 0x00, 0x11],
            [0x00, 0x40, 0xAC, 0x23],
            stringToBuffer (vip.aptAddress ++ vip.aptSubaddress) true,
            [0x10, 0x0E],
            [0x00, 0x00, 0x00, 0x00],
            [0xFF, 0xFF, 0xFF, 0xFF],
            stringToBuffer (vip.aptAddress ++ vip.aptSubaddress) true,
            stringToBuffer vip.aptAddress true,
            [0x00]],
         doorMessage 90 vip door false,
         doorMessage 90 vip door true,
         createBinaryPacketFromBuffers 90
           [[0xC0, 0x18, 0x70, 0xAB],
            [0x29, 0x9F, 0x00, 0x0D],
            [0x00, 0x2D],
            stringToBuffer door.aptAddress true,
            [0x00],
            [k, 0x00, 0x00, 0x00],
            [0xFF, 0xFF, 0xFF, 0xFF],
            stringToBuffer (vip.aptAddress ++ door.outputIndex) true,
            stringToBuffer door.aptAddress true,
            [0x00]],
         doorMessage 90 vip door false,
         doorMessage 90 vip door true,
         createCommandPacket 90 3 MessageType.END none none],
        [none, some 2, some 2, none]⟩) := by
    simp [openDoor, openDoorInit, openChannel, closeChannel, readTwoTolerant,
      writePacket, readResponse, readResponseTimeout2, readFrame, M.bind, M.get,
      M.pure, M.modifyS, M.throw, M.attempt, doorRunState, hidx, setEntry,
      removeEntry, lookupEntry, openedCD, Resp.typeIsBinary, Resp.seqField,
      Resp.channelIdTruthy]
  rw [hrun]
  refine ⟨rfl, ?_, ?_, rfl⟩ <;>
    simp only [List.map, msgTypeAt_commandPacket, msgTypeAt_bufferPacket,
      msgTypeAt_doorMessage_open, msgTypeAt_doorMessage_confirm] <;>
    decide

/-- C3 witness: the fixture door "Front Door" at output index "1". -/
theorem C3_open_door_sequence_witness :
    (openDoor ⟨"100", ""⟩ ⟨"100", "1", "Front Door"⟩ doorRunState).1 = Except.ok () ∧
    2 ≤ countDoorPairs
      (((openDoor ⟨"100", ""⟩ ⟨"100", "1", "Front Door"⟩ doorRunState).2).writes.map
        msgTypeAt) ∧
    MessageType.END ∈
      ((openDoor ⟨"100", ""⟩ ⟨"100", "1", "Front Door"⟩ doorRunState).2).writes.map
        msgTypeAt ∧
    lookupEntry ((openDoor ⟨"100", ""⟩ ⟨"100", "1", "Front Door"⟩
      doorRunState).2).openChannels "CTPP" = none :=
  C3_open_door_sequence ⟨"100", ""⟩ ⟨"100", "1", "Front Door"⟩ 1 (by decide)

/-- C7 counterexample: in a complete authenticate run the client performs
socket reads with no wait_for deadline at all (the recorded bounds are
not all some), so it is false that every socket read is bounded by a
deadline — a silent device blocks these reads indefinitely. -/
theorem C7_counterexample :
    (((authenticate "tok" (exchangeRunState (Except.ok none))).2).bounds.all
      Option.isSome) = false := by
  decide

/-- C7 (amended): only the connection attempt (10 s) and the
door-handshake sub-reads (2 s each) run under wait_for deadlines; the
response reads inside channel open, channel close, authenticate and
get_config run with no deadline (bound none), so a device that sends
nothing blocks those calls indefinitely rather than failing with a
timeout. -/
theorem C7_read_deadlines :
    ((connect (exchangeRunState (Except.ok none))).2).bounds = [some 10] ∧
    connectTimeoutSeconds = 10 ∧
    ((authenticate "tok" (exchangeRunState (Except.ok none))).2).bounds =
      [none, none, none] ∧
    ((getConfig "all" (exchangeRunState (Except.ok none))).2).bounds =
      [none, none, none] ∧
    ((openDoor ⟨"100", ""⟩ ⟨"100", "1", "Front Door"⟩ doorRunState).2).bounds =
      [none, some 2, some 2, none] := by
  refine ⟨rfl, rfl, rfl, rfl, ?_⟩
  decide
